import Mathlib

/-!
# Verification of the signal-to-execution pipeline of an automated spot-trading bot

Shallow embedding of the strategy router, risk engine, position monitor and
state store of the `coin_makes_me_rich` repository.

Conventions:
* Python floats are embedded as `ℚ`.
* `datetime` instants are embedded as `ℤ` (seconds); `timedelta(minutes=1)` is `60`.
* Python dicts keyed by symbol are embedded as association lists with
  latest-write-first (`(k, v) :: rest`) semantics, looked up with `List.find?`.
* Fallible operations (pydantic validation, attribute access) return `Except`.
* The awaited external world of one loop iteration (risk-engine answers,
  orderbook, balances, the exchange's response to an order submission) is
  packaged as an `Env` record passed to the step function; the loop body
  between two `await` points executes atomically, so one step function
  application per dequeued signal is a faithful model of the consumer loop.
-/

namespace CoinBot

/-- Order side, from `app/exchange/models.py` (`Side(str, Enum)` with values
`"Buy"` and `"Sell"`). -/
inductive Side where
  | BUY
  | SELL
  deriving DecidableEq, Repr

/-- The `Signal` record from `app/utils/typing.py`, as the router manipulates it
(plain attribute access).  Pydantic's validation of the constructor — `strength`
being a required field and `signal_type` being restricted to the `Literal`
`"scalping" | "trend" | "combined"` — is embedded separately in `mkSignal`. -/
structure Signal where
  symbol : String
  side : Side
  price : ℚ
  reason : String
  strength : ℚ
  signal_type : String
  deriving DecidableEq, Repr

/-- The allowed values of `Signal.signal_type`:
`signal_type: Literal["scalping", "trend", "combined"]` in `app/utils/typing.py`. -/
def validSignalType (t : String) : Bool :=
  t = "scalping" || t = "trend" || t = "combined"

/-- Pydantic construction of a `Signal` (`app/utils/typing.py`, class `Signal`):
every field is declared required (`Field(...)`), so omitting `strength` raises a
`ValidationError`, and a `signal_type` outside the `Literal` raises a
`ValidationError`.  The keyword arguments actually passed are the inputs;
`strength` is `Option` because `_create_exit_signal` omits it. -/
def mkSignal (symbol : String) (side : Side) (price : ℚ) (reason : String)
    (strength : Option ℚ) (signal_type : String) : Except String Signal :=
  match strength with
  | none => .error "ValidationError: field required: strength"
  | some s =>
    if validSignalType signal_type then
      .ok ⟨symbol, side, price, reason, s, signal_type⟩
    else
      .error "ValidationError: signal_type not permitted"

/-- The `RiskConfig` model from `app/state/models.py` (lines 38–47).  These are
all of its fields; in particular there is no `max_holding_time_seconds` field. -/
structure RiskConfig where
  day_loss_limit_usd : ℚ
  day_profit_target_pct : ℚ
  risk_per_trade : ℚ
  max_active_symbols : ℤ
  max_slippage_bps : ℤ
  default_tp_bps : ℤ
  default_sl_bps : ℤ
  trailing_sl_bps : ℤ
  deriving DecidableEq, Repr

/-- The pydantic `Field` bounds of `RiskConfig` (`gt=0`, `gt=0`, `gt=0 lt=1`,
`gt=0`, `ge=0`, `gt=0`, `gt=0`, `gt=0`), checked at assignment. -/
def RiskConfig.valid (c : RiskConfig) : Prop :=
  0 < c.day_loss_limit_usd ∧ 0 < c.day_profit_target_pct ∧
    (0 < c.risk_per_trade ∧ c.risk_per_trade < 1) ∧ 0 < c.max_active_symbols ∧
    0 ≤ c.max_slippage_bps ∧ 0 < c.default_tp_bps ∧ 0 < c.default_sl_bps ∧
    0 < c.trailing_sl_bps

instance (c : RiskConfig) : Decidable c.valid := by
  unfold RiskConfig.valid; infer_instance

/-- The default risk configuration from `app/config.py`
(`DAY_LOSS_LIMIT_USD=200.0`, `DAY_PROFIT_TARGET_PCT=1.0`, `RISK_PER_TRADE=0.95`,
`MAX_ACTIVE_SYMBOLS=5`, `MAX_SLIPPAGE_BPS=100`, `DEFAULT_TP_BPS=50`,
`DEFAULT_SL_BPS=25`, `TRAILING_SL_BPS=30`). -/
def defaultRiskConfig : RiskConfig :=
  { day_loss_limit_usd := 200
    day_profit_target_pct := 1
    risk_per_trade := 95 / 100
    max_active_symbols := 5
    max_slippage_bps := 100
    default_tp_bps := 50
    default_sl_bps := 25
    trailing_sl_bps := 30 }

/-- `RiskEngine.is_globally_ok_to_trade` from `app/risk/engine.py` (lines
154–176), as a function of the configuration and the two fields of the system
state it reads (`pnl_day` and `total_equity`).  The logging and error-list side
effects do not influence the returned value and are omitted. -/
def is_globally_ok_to_trade (cfg : RiskConfig) (pnl_day total_equity : ℚ) : Bool :=
  if pnl_day ≤ -cfg.day_loss_limit_usd then
    false
  else if 0 < total_equity then
    let profit_target_usd := total_equity * (cfg.day_profit_target_pct / 100)
    if profit_target_usd ≤ pnl_day then false else true
  else
    true

/-- The fields of `StateStore` / `SystemState` (`app/state/store.py`,
`app/state/models.py`) that the daily-P&L cache operations read and write. -/
structure StoreState where
  initial_total_equity : ℚ
  total_equity : ℚ
  available_balance : ℚ
  unrealised_pnl : ℚ
  pnl_day : ℚ
  pnl_day_pct : ℚ
  realized_pnl : ℚ
  deriving DecidableEq, Repr

/-- The equity/P&L portion of `StateStore.update_wallet_balance`
(`app/state/store.py` lines 118–172), as a function of the fetched
`totalEquity` and `totalAvailableBalance`.  The remainder of that method
rebuilds the per-coin balance dictionary, `held_symbols` and
`active_positions`; it reads and writes none of the equity/P&L fields embedded
here. -/
def update_wallet_balance (st : StoreState) (totalEquity totalAvailableBalance : ℚ) :
    StoreState :=
  let st := { st with
    total_equity := totalEquity
    available_balance := totalAvailableBalance
    unrealised_pnl := 0 }
  if 0 < st.initial_total_equity then
    let pnl := st.total_equity - st.initial_total_equity
    { st with
      pnl_day := pnl
      realized_pnl := pnl
      pnl_day_pct := pnl / st.initial_total_equity * 100 }
  else
    st

/-- `StateStore.update_realized_pnl` (`app/state/store.py` lines 230–246):
the body unconditionally sets `realized_pnl = 0.0` and `pnl_day = 0.0`
("temporarily keep PnL at 0" — spot closed-PnL is unsupported by the API).
`update_realized_pnl_loop` invokes it every 60 seconds when started. -/
def update_realized_pnl (st : StoreState) : StoreState :=
  { st with realized_pnl := 0, pnl_day := 0 }

/-- `StateStore.reset_daily_state` (`app/state/store.py` lines 106–114). -/
def reset_daily_state (st : StoreState) (current_equity : ℚ) : StoreState :=
  { st with
    initial_total_equity := current_equity
    pnl_day := 0
    realized_pnl := 0 }

/-- Modelled from the spec: the `Position` record (spec §3) is imported by the
router as `from app.state.models import Position`, but no definition of it
appears in the sources; the fields follow the spec's attribute list restricted
to those the router constructs and reads (`last_update_timestamp` is never
touched by the embedded code). -/
structure Position where
  symbol : String
  quantity : ℚ
  average_price : ℚ
  entry_price : ℚ
  entry_timestamp : ℚ
  highest_price_since_entry : ℚ
  deriving DecidableEq, Repr

/-- `StrategyRouter._create_exit_signal` (`app/strategy/router.py` lines
187–192): it constructs `Signal(symbol=position.symbol, side=Side.SELL,
price=position.average_price, reason=reason, signal_type="exit_monitor")` —
omitting the required `strength` field and using a `signal_type` outside the
model's `Literal` — and would then `put_nowait` the result onto the queue. -/
def create_exit_signal (position : Position) (reason : String) : Except String Signal :=
  mkSignal position.symbol Side.SELL position.average_price reason none "exit_monitor"

/-- Which branch of the per-position `if/elif` chain of
`StrategyRouter._position_monitor_loop` fires (`app/strategy/router.py` lines
136–156). -/
inductive ExitKind where
  | takeProfit (pnl_bps : ℚ)
  | stopLoss (pnl_bps : ℚ)
  deriving DecidableEq, Repr

/-- Outcome of one position's evaluation by the monitor. -/
inductive MonitorResult where
  | skip
  | exited (k : ExitKind)
  | attrError
  deriving DecidableEq, Repr

/-- One position's evaluation by `_position_monitor_loop`
(`app/strategy/router.py` lines 136–156), with the symbol's best bid (the
head of `orderbook['b']`, absent when no orderbook snapshot exists) as the
current price:
* no orderbook data, or `entry_price == 0` → the position is skipped;
* `pnl_bps = (current_price / entry_price - 1) * 10000`;
* `pnl_bps >= config.default_tp_bps` → take-profit branch;
* else `pnl_bps <= -config.default_sl_bps` → stop-loss branch;
* else the code evaluates
  `time.time() - position.entry_timestamp > config.max_holding_time_seconds`,
  and since the `RiskConfig` model (`app/state/models.py` lines 38–47) has no
  `max_holding_time_seconds` field, the attribute access raises
  `AttributeError`, aborting the whole monitor cycle (`MonitorResult.attrError`).
  No later branch (timeout, RSI, dead cross) is reachable, and no trailing-stop
  branch exists anywhere in the loop.
A branch that fires calls `_create_exit_signal` (see `create_exit_signal`). -/
def monitor_check_position (cfg : RiskConfig) (pos : Position) (best_bid : Option ℚ) :
    MonitorResult :=
  match best_bid with
  | none => .skip
  | some current_price =>
    if pos.entry_price = 0 then .skip
    else if (cfg.default_tp_bps : ℚ) ≤ (current_price / pos.entry_price - 1) * 10000 then
      .exited (.takeProfit ((current_price / pos.entry_price - 1) * 10000))
    else if (current_price / pos.entry_price - 1) * 10000 ≤ -(cfg.default_sl_bps : ℚ) then
      .exited (.stopLoss ((current_price / pos.entry_price - 1) * 10000))
    else
      .attrError

/-- The `CoinBalance` model (`app/exchange/models.py`) restricted to the fields
the router reads (`wallet_balance`; `coin` is the dictionary key). -/
structure CoinBalance where
  coin : String
  wallet_balance : ℚ
  deriving DecidableEq, Repr

/-- The mutable attributes of `StrategyRouter` (`app/strategy/router.py` lines
52–56) that the consumer loop reads and writes: the trade lock
(`_trade_in_progress`, `_pending_symbol`) and the per-symbol cooldown
dictionary (`_last_trade_times`, embedded as a latest-write-first association
list of symbol/instant pairs). -/
structure RouterState where
  trade_in_progress : Bool
  pending_symbol : Option String
  last_trade_times : List (String × ℤ)
  deriving DecidableEq, Repr

/-- Outcome of an awaited `bybit_client.place_market_order` call:
a result dict with an `orderId`, a result without one (submission failed), or
an exception propagating out of the call. -/
inductive OrderOutcome where
  | success (orderId : String)
  | failure
  | raised
  deriving DecidableEq, Repr

/-- Results of the external reads and calls one loop iteration performs, fixed
for the iteration.  `best_bid` is `float(orderbook['b'][0][0])` when
`state_store.get_orderbook` has a snapshot with a nonempty bid list, `none`
otherwise; `balance` is `state_store.get_balance(base_currency)`.
`is_allowed` and `notional` are the answers of
`risk_engine.is_trade_allowed(symbol, Side.BUY)` and
`risk_engine.calculate_notional_size(symbol)` — both methods are called by the
router but have no definition in `app/risk/engine.py`, so they enter the
router model as oracle inputs (see `calculate_notional_size` for the
spec-modelled sizing rule).  `now` is `datetime.utcnow()` in seconds. -/
structure Env where
  globally_ok : Bool
  best_bid : Option ℚ
  balance : Option CoinBalance
  is_allowed : Bool
  notional : ℚ
  outcome : OrderOutcome
  now : ℤ
  deriving DecidableEq, Repr

/-- Externally visible actions of one loop iteration, in program order:
setting the trade lock, calling `place_market_order`, and
`asyncio.create_task(self._unlock_after_delay(...))`. -/
inductive Effect where
  | lockAcquire (symbol : String)
  | submitOrder (symbol : String) (side : Side) (qty : ℚ) (notional : ℚ)
  | scheduleUnlock (delay_seconds : ℕ)
  deriving DecidableEq, Repr

/-- Whether an effect is an order submission. -/
def Effect.isSubmit : Effect → Bool
  | .submitOrder _ _ _ _ => true
  | _ => false

/-- Number of order submissions in an effect trace. -/
def countSubmits (effs : List Effect) : ℕ :=
  (effs.filter Effect.isSubmit).length

/-- Dictionary lookup `self._last_trade_times.get(symbol)`; writes cons the new
pair in front, so the first match is the latest write. -/
def lookupTime (times : List (String × ℤ)) (symbol : String) : Option ℤ :=
  (times.find? (fun p => p.1 == symbol)).map (fun p => p.2)

/-- `StrategyRouter._is_in_cooldown` (`app/strategy/router.py` lines 250–255):
true when a last-trade instant is recorded for the symbol and
`datetime.utcnow() - last_trade_time < timedelta(minutes=1)`. -/
def is_in_cooldown (st : RouterState) (symbol : String) (now : ℤ) : Bool :=
  match lookupTime st.last_trade_times symbol with
  | some last_trade_time => decide (now - last_trade_time < 60)
  | none => false

/-- `StrategyRouter._unlock_trade` (`app/strategy/router.py` lines 355–360). -/
def unlock_trade (st : RouterState) : RouterState :=
  if st.trade_in_progress then
    { st with trade_in_progress := false, pending_symbol := none }
  else
    st

/-- `StrategyRouter._execute_buy_trade` (`app/strategy/router.py` lines
259–320): if the computed notional is ≤ 0, return without doing anything;
otherwise set the trade lock, submit the market BUY order, and
* on a result carrying an `orderId`, record the trade time
  (`self._last_trade_times[signal.symbol] = datetime.utcnow()`) and schedule
  the unlock after a 5-second delay (the subsequent order-history fetch and
  position recording mutate the state store, not the router state, and their
  exceptions are caught by an inner handler that still lets the delayed
  unlock be scheduled);
* on a result without an `orderId`, or on an exception, call `_unlock_trade`
  immediately. -/
def execute_buy_trade (st : RouterState) (signal : Signal) (env : Env) :
    RouterState × List Effect :=
  if env.notional ≤ 0 then
    (st, [])
  else
    let locked : RouterState :=
      { st with trade_in_progress := true, pending_symbol := some signal.symbol }
    match env.outcome with
    | .success _ =>
      ({ locked with last_trade_times := (signal.symbol, env.now) :: locked.last_trade_times },
        [.lockAcquire signal.symbol, .submitOrder signal.symbol Side.BUY 0 env.notional,
          .scheduleUnlock 5])
    | .failure =>
      (unlock_trade locked,
        [.lockAcquire signal.symbol, .submitOrder signal.symbol Side.BUY 0 env.notional])
    | .raised =>
      (unlock_trade locked,
        [.lockAcquire signal.symbol, .submitOrder signal.symbol Side.BUY 0 env.notional])

/-- `StrategyRouter._execute_sell_trade` (`app/strategy/router.py` lines
322–343): set the trade lock, submit the market SELL order for the full
quantity passed in, and on success record the trade time and schedule the
delayed unlock (the fire-and-forget trade-record task touches only the state
store); on failure or exception call `_unlock_trade` immediately. -/
def execute_sell_trade (st : RouterState) (signal : Signal) (qty_to_sell : ℚ) (env : Env) :
    RouterState × List Effect :=
  let locked : RouterState :=
    { st with trade_in_progress := true, pending_symbol := some signal.symbol }
  match env.outcome with
  | .success _ =>
    ({ locked with last_trade_times := (signal.symbol, env.now) :: locked.last_trade_times },
      [.lockAcquire signal.symbol, .submitOrder signal.symbol Side.SELL qty_to_sell 0,
        .scheduleUnlock 5])
  | .failure =>
    (unlock_trade locked,
      [.lockAcquire signal.symbol, .submitOrder signal.symbol Side.SELL qty_to_sell 0])
  | .raised =>
    (unlock_trade locked,
      [.lockAcquire signal.symbol, .submitOrder signal.symbol Side.SELL qty_to_sell 0])

/-- `StrategyRouter._evaluate_signal` (`app/strategy/router.py` lines 194–248):
* drop the signal when the symbol is in cooldown, unless
  `signal.signal_type == "exit_monitor"`;
* abort when no orderbook bid is available;
* SELL: drop when no balance is held, the held quantity is ≤ 0, or its value
  at the current price is below `MIN_SELL_VALUE_USD = 5.0`; otherwise sell the
  full held quantity;
* BUY: drop when the asset is already held with value ≥
  `DUST_THRESHOLD_USD = 10.0`; otherwise defer to
  `risk_engine.is_trade_allowed` and, when allowed, buy. -/
def evaluate_signal (st : RouterState) (signal : Signal) (env : Env) :
    RouterState × List Effect :=
  if is_in_cooldown st signal.symbol env.now && !(signal.signal_type == "exit_monitor") then
    (st, [])
  else
    match env.best_bid with
    | none => (st, [])
    | some current_price =>
      match signal.side with
      | Side.SELL =>
        match env.balance with
        | some balance =>
          if 0 < balance.wallet_balance then
            if balance.wallet_balance * current_price < 5 then
              (st, [])
            else
              execute_sell_trade st signal balance.wallet_balance env
          else
            (st, [])
        | none => (st, [])
      | Side.BUY =>
        match env.balance with
        | some balance =>
          if 0 < balance.wallet_balance ∧ 10 ≤ balance.wallet_balance * current_price then
            (st, [])
          else if env.is_allowed then
            execute_buy_trade st signal env
          else
            (st, [])
        | none =>
          if env.is_allowed then
            execute_buy_trade st signal env
          else
            (st, [])

/-- Whether the loop body runs again after this iteration. -/
inductive LoopAction where
  | continued
  | halted
  deriving DecidableEq, Repr

/-- One iteration of `StrategyRouter._strategy_loop`
(`app/strategy/router.py` lines 98–120), applied to the dequeued signal:
* a `CancelledError` raised by the queue wait breaks the loop
  (`cancelled` input);
* if `risk_engine.is_globally_ok_to_trade()` is false, `continue` — the
  signal is discarded and the loop keeps consuming;
* if `self._trade_in_progress` is set, log and `continue` — the signal is
  discarded, never buffered or replayed;
* otherwise evaluate the signal (any exception is caught by the loop's
  handler and the loop continues; the `raised` outcome inside
  `evaluate_signal` covers the order-call exception path). -/
def strategy_step (cancelled : Bool) (st : RouterState) (signal : Signal) (env : Env) :
    RouterState × List Effect × LoopAction :=
  if cancelled then
    (st, [], .halted)
  else if !env.globally_ok then
    (st, [], .continued)
  else if st.trade_in_progress then
    (st, [], .continued)
  else
    ((evaluate_signal st signal env).1, (evaluate_signal st signal env).2, .continued)

/-- Run of the strategy loop over a list of dequeued signals with their
iteration environments, collecting the effect trace. -/
def run_steps (st : RouterState) : List (Signal × Env) → RouterState × List Effect
  | [] => (st, [])
  | (signal, env) :: rest =>
    match strategy_step false st signal env with
    | (st1, effs, .halted) => (st1, effs)
    | (st1, effs, .continued) =>
      let r := run_steps st1 rest
      (r.1, effs ++ r.2)

/-- Rounding to two decimal places (the quote-currency convention for
USD-quoted pairs). -/
def round2 (x : ℚ) : ℚ :=
  ((round (x * 100) : ℤ) : ℚ) / 100

/-- Modelled from the spec: `RiskEngine.calculate_notional_size` is invoked by
`_execute_buy_trade` (`app/strategy/router.py` line 262) but no definition of
it appears in `app/risk/engine.py`; modelled from spec §4.3: the order value
is `min(total_equity * risk_per_trade, available_balance)`, 0 when the
available balance is below a minimum trading buffer or the computed size is
below the exchange's minimum order value (`RiskEngine._min_notional_map`),
rounded to two decimal places. -/
def calculate_notional_size (cfg : RiskConfig)
    (total_equity available_balance min_trading_buffer min_order_value : ℚ) : ℚ :=
  if available_balance < min_trading_buffer then
    0
  else if min (total_equity * cfg.risk_per_trade) available_balance < min_order_value then
    0
  else
    round2 (min (total_equity * cfg.risk_per_trade) available_balance)

/-- The router state at loop start (`start()` resets `_trade_in_progress` and
`_pending_symbol`; `_last_trade_times` begins empty). -/
def initialRouterState : RouterState :=
  { trade_in_progress := false, pending_symbol := none, last_trade_times := [] }

/-- A router state whose trade lock is held. -/
def lockedRouterState : RouterState :=
  { trade_in_progress := true, pending_symbol := some "BTCUSDT", last_trade_times := [] }

/-- A scanner BUY signal. -/
def buySignal : Signal :=
  { symbol := "ETHUSDT"
    side := Side.BUY
    price := 100
    reason := "Golden Cross"
    strength := 1 / 2
    signal_type := "scalping" }

/-- An exit-monitor SELL signal (as the router-side record; pydantic would
reject its construction, see `mkSignal`). -/
def exitSellSignal : Signal :=
  { symbol := "ETHUSDT"
    side := Side.SELL
    price := 100
    reason := "Take Profit at 600.0 BPS"
    strength := 1
    signal_type := "exit_monitor" }

/-- An iteration environment in which the global kill-switch is active. -/
def killSwitchEnv : Env :=
  { globally_ok := false
    best_bid := some 100
    balance := none
    is_allowed := true
    notional := 50
    outcome := .success "oid-1"
    now := 0 }

/-- An iteration environment in which trading is globally allowed, the symbol
is not held, the risk engine admits the trade at notional 50, and the order
submission succeeds at instant 10. -/
def openEnv : Env :=
  { globally_ok := true
    best_bid := some 100
    balance := none
    is_allowed := true
    notional := 50
    outcome := .success "oid-1"
    now := 10 }

/-- `openEnv` thirty seconds later (instant 40, inside the 60-second cooldown
window of a trade made at instant 10). -/
def laterEnv : Env :=
  { globally_ok := true
    best_bid := some 100
    balance := none
    is_allowed := true
    notional := 50
    outcome := .success "oid-2"
    now := 40 }

/-- An environment holding 2 units of the base asset quoted at a best bid of
100 (held value 200, above the dust thresholds), in cooldown-free conditions
at instant 40. -/
def heldEnv : Env :=
  { globally_ok := true
    best_bid := some 100
    balance := some { coin := "ETH", wallet_balance := 2 }
    is_allowed := true
    notional := 50
    outcome := .success "oid-3"
    now := 40 }

/-- The position of the spec's trailing-stop scenario:
`highest_price_since_entry = 110`, entry at `107.6`, so that at a current
price of `107.5` neither take-profit (`pnl_bps ≈ -9.3 < 50`) nor stop-loss
(`-9.3 > -25`) triggers. -/
def c5Position : Position :=
  { symbol := "BTCUSDT"
    quantity := 1
    average_price := 538 / 5
    entry_price := 538 / 5
    entry_timestamp := 0
    highest_price_since_entry := 110 }

/-- A position entered at `100` quoted at `100.2` (`pnl_bps = 20`, inside the
take-profit/stop-loss band of the default configuration). -/
def c5FlatPosition : Position :=
  { symbol := "ETHUSDT"
    quantity := 1
    average_price := 100
    entry_price := 100
    entry_timestamp := 0
    highest_price_since_entry := 100 }

/-- A position entered at `100` and still quoted at `100` (`pnl_bps = 0`) whose
entry lies arbitrarily far in the past (`entry_timestamp = 0`), so only the
timeout branch could apply to it. -/
def c6Position : Position :=
  { symbol := "SOLUSDT"
    quantity := 2
    average_price := 100
    entry_price := 100
    entry_timestamp := 0
    highest_price_since_entry := 100 }

/-- A store snapshot that has breached the daily loss limit of
`defaultRiskConfig`: initial equity 1000, current equity 700, daily P&L −300
(below −200). -/
def breachedStore : StoreState :=
  { initial_total_equity := 1000
    total_equity := 700
    available_balance := 700
    unrealised_pnl := 0
    pnl_day := -300
    pnl_day_pct := -30
    realized_pnl := -300 }

/-- C3: `is_globally_ok_to_trade()` returns true unless (a) daily P&L ≤
`-day_loss_limit_usd`, or (b) `total_equity > 0` and daily P&L ≥
`total_equity * day_profit_target_pct / 100`; with daily P&L `-250` and
`day_loss_limit_usd` `200` it returns false. -/
theorem c3_globally_ok_to_trade :
    (∀ (cfg : RiskConfig) (pnl_day total_equity : ℚ),
      is_globally_ok_to_trade cfg pnl_day total_equity = false ↔
        (pnl_day ≤ -cfg.day_loss_limit_usd ∨
          (0 < total_equity ∧
            total_equity * (cfg.day_profit_target_pct / 100) ≤ pnl_day))) ∧
    is_globally_ok_to_trade defaultRiskConfig (-250) 1000 = false := by
  constructor
  · intro cfg pnl_day total_equity
    unfold is_globally_ok_to_trade
    split
    · simp_all
    · dsimp only
      split
      · split <;> simp_all
      · simp_all
  · decide

/-- `_unlock_trade` always leaves the lock cleared. -/
theorem unlock_trade_not_in_progress (st : RouterState) :
    (unlock_trade st).trade_in_progress = false := by
  unfold unlock_trade
  split <;> simp_all

/-- `_unlock_trade` does not touch the cooldown dictionary. -/
theorem unlock_trade_last_trade_times (st : RouterState) :
    (unlock_trade st).last_trade_times = st.last_trade_times := by
  unfold unlock_trade
  split <;> rfl

/-- Case analysis of `_execute_buy_trade`: nothing happens on a nonpositive
notional; otherwise the effect trace is lock–submit(–schedule unlock), the
cooldown instant is recorded exactly on success, and the lock ends held
exactly on success. -/
theorem execute_buy_trade_cases (st : RouterState) (signal : Signal) (env : Env) :
    (env.notional ≤ 0 ∧ execute_buy_trade st signal env = (st, [])) ∨
    (¬env.notional ≤ 0 ∧ (∃ oid, env.outcome = OrderOutcome.success oid) ∧
      execute_buy_trade st signal env =
        (⟨true, some signal.symbol,
            (signal.symbol, env.now) :: st.last_trade_times⟩,
          [Effect.lockAcquire signal.symbol,
            Effect.submitOrder signal.symbol Side.BUY 0 env.notional,
            Effect.scheduleUnlock 5])) ∨
    (¬env.notional ≤ 0 ∧
      (env.outcome = OrderOutcome.failure ∨ env.outcome = OrderOutcome.raised) ∧
      execute_buy_trade st signal env =
        (⟨false, none, st.last_trade_times⟩,
          [Effect.lockAcquire signal.symbol,
            Effect.submitOrder signal.symbol Side.BUY 0 env.notional])) := by
  by_cases h : env.notional ≤ 0
  · exact Or.inl ⟨h, by simp [execute_buy_trade, h]⟩
  · cases ho : env.outcome with
    | success oid =>
      exact Or.inr (Or.inl ⟨h, ⟨oid, rfl⟩, by simp [execute_buy_trade, h, ho]⟩)
    | failure =>
      exact Or.inr (Or.inr ⟨h, Or.inl rfl,
        by simp [execute_buy_trade, unlock_trade, h, ho]⟩)
    | raised =>
      exact Or.inr (Or.inr ⟨h, Or.inr rfl,
        by simp [execute_buy_trade, unlock_trade, h, ho]⟩)

/-- Case analysis of `_execute_sell_trade`, analogous to
`execute_buy_trade_cases` but with no notional guard. -/
theorem execute_sell_trade_cases (st : RouterState) (signal : Signal) (qty : ℚ) (env : Env) :
    ((∃ oid, env.outcome = OrderOutcome.success oid) ∧
      execute_sell_trade st signal qty env =
        (⟨true, some signal.symbol,
            (signal.symbol, env.now) :: st.last_trade_times⟩,
          [Effect.lockAcquire signal.symbol,
            Effect.submitOrder signal.symbol Side.SELL qty 0,
            Effect.scheduleUnlock 5])) ∨
    ((env.outcome = OrderOutcome.failure ∨ env.outcome = OrderOutcome.raised) ∧
      execute_sell_trade st signal qty env =
        (⟨false, none, st.last_trade_times⟩,
          [Effect.lockAcquire signal.symbol,
            Effect.submitOrder signal.symbol Side.SELL qty 0])) := by
  cases ho : env.outcome with
  | success oid =>
    exact Or.inl ⟨⟨oid, rfl⟩, by simp [execute_sell_trade, ho]⟩
  | failure =>
    exact Or.inr ⟨Or.inl rfl, by simp [execute_sell_trade, unlock_trade, ho]⟩
  | raised =>
    exact Or.inr ⟨Or.inr rfl, by simp [execute_sell_trade, unlock_trade, ho]⟩

/-- Case analysis of `_evaluate_signal`: either the signal is dropped with no
state change, or control reaches `_execute_sell_trade` with the full held
quantity, or it reaches `_execute_buy_trade`. -/
theorem evaluate_signal_cases (st : RouterState) (signal : Signal) (env : Env) :
    evaluate_signal st signal env = (st, []) ∨
    (signal.side = Side.SELL ∧ ∃ balance, env.balance = some balance ∧
      0 < balance.wallet_balance ∧
      evaluate_signal st signal env = execute_sell_trade st signal balance.wallet_balance env) ∨
    (signal.side = Side.BUY ∧
      evaluate_signal st signal env = execute_buy_trade st signal env) := by
  unfold evaluate_signal
  split
  · exact Or.inl rfl
  · cases hbid : env.best_bid with
    | none => exact Or.inl rfl
    | some current_price =>
      cases hside : signal.side with
      | SELL =>
        cases hbal : env.balance with
        | none => exact Or.inl rfl
        | some balance =>
          by_cases hwb : 0 < balance.wallet_balance
          · by_cases hdust : balance.wallet_balance * current_price < 5
            · exact Or.inl (by simp [hwb, hdust])
            · exact Or.inr (Or.inl ⟨rfl, balance, rfl, hwb, by simp [hwb, hdust]⟩)
          · exact Or.inl (by simp [hwb])
      | BUY =>
        cases hbal : env.balance with
        | none =>
          by_cases hallow : env.is_allowed
          · exact Or.inr (Or.inr ⟨rfl, by simp [hallow]⟩)
          · exact Or.inl (by simp [hallow])
        | some balance =>
          by_cases hheld : 0 < balance.wallet_balance ∧
              10 ≤ balance.wallet_balance * current_price
          · exact Or.inl (by simp [hheld])
          · by_cases hallow : env.is_allowed
            · exact Or.inr (Or.inr ⟨rfl, by simp [hheld, hallow]⟩)
            · exact Or.inl (by simp [hheld, hallow])

/-- When the kill-switch is active or the trade lock is held, the loop body
discards the signal without effects and continues. -/
theorem strategy_step_skip (st : RouterState) (signal : Signal) (env : Env)
    (h : env.globally_ok = false ∨ st.trade_in_progress = true) :
    strategy_step false st signal env = (st, [], LoopAction.continued) := by
  unfold strategy_step
  rcases h with h | h <;> simp [h]

/-- When the kill-switch passes and the lock is free, the loop body runs
`_evaluate_signal`. -/
theorem strategy_step_eval (st : RouterState) (signal : Signal) (env : Env)
    (hok : env.globally_ok = true) (htip : st.trade_in_progress = false) :
    strategy_step false st signal env =
      ((evaluate_signal st signal env).1, (evaluate_signal st signal env).2,
        LoopAction.continued) := by
  unfold strategy_step
  simp [hok, htip]

/-- No effects in an empty trace. -/
theorem countSubmits_nil : countSubmits [] = 0 := rfl

/-- A lock–submit–schedule trace contains exactly one submission. -/
theorem countSubmits_success_shape (s1 s : String) (sd : Side) (q n : ℚ) :
    countSubmits [Effect.lockAcquire s1, Effect.submitOrder s sd q n,
      Effect.scheduleUnlock 5] = 1 := rfl

/-- A lock–submit trace contains exactly one submission. -/
theorem countSubmits_failure_shape (s1 s : String) (sd : Side) (q n : ℚ) :
    countSubmits [Effect.lockAcquire s1, Effect.submitOrder s sd q n] = 1 := rfl

/-- Characterization of one non-skipped loop iteration: either nothing
happened, or the effect trace is lock–submit–schedule with the lock left held
(successful submission), or lock–submit with the lock cleared (failed or
excepted submission). -/
theorem strategy_step_spec (st : RouterState) (signal : Signal) (env : Env)
    (hok : env.globally_ok = true) (htip : st.trade_in_progress = false) :
    ((strategy_step false st signal env).2.1 = [] ∧
      (strategy_step false st signal env).1 = st) ∨
    (∃ sd q n,
      ((strategy_step false st signal env).2.1 =
          [Effect.lockAcquire signal.symbol, Effect.submitOrder signal.symbol sd q n,
            Effect.scheduleUnlock 5] ∧
        (∃ oid, env.outcome = OrderOutcome.success oid) ∧
        (strategy_step false st signal env).1.trade_in_progress = true) ∨
      ((strategy_step false st signal env).2.1 =
          [Effect.lockAcquire signal.symbol, Effect.submitOrder signal.symbol sd q n] ∧
        (env.outcome = OrderOutcome.failure ∨ env.outcome = OrderOutcome.raised) ∧
        (strategy_step false st signal env).1.trade_in_progress = false)) := by
  rw [strategy_step_eval st signal env hok htip]
  rcases evaluate_signal_cases st signal env with hev |
    ⟨hside, balance, hbal, hwb, hev⟩ | ⟨hside, hev⟩
  · exact Or.inl (by simp [hev])
  · rcases execute_sell_trade_cases st signal balance.wallet_balance env with
      ⟨hoc, hex⟩ | ⟨hoc, hex⟩
    · exact Or.inr ⟨Side.SELL, balance.wallet_balance, 0,
        Or.inl ⟨by simp [hev, hex], hoc, by simp [hev, hex]⟩⟩
    · exact Or.inr ⟨Side.SELL, balance.wallet_balance, 0,
        Or.inr ⟨by simp [hev, hex], hoc, by simp [hev, hex]⟩⟩
  · rcases execute_buy_trade_cases st signal env with
      ⟨_, hex⟩ | ⟨_, hoc, hex⟩ | ⟨_, hoc, hex⟩
    · exact Or.inl (by simp [hev, hex])
    · exact Or.inr ⟨Side.BUY, 0, env.notional,
        Or.inl ⟨by simp [hev, hex], hoc, by simp [hev, hex]⟩⟩
    · exact Or.inr ⟨Side.BUY, 0, env.notional,
        Or.inr ⟨by simp [hev, hex], hoc, by simp [hev, hex]⟩⟩

/-- C1: the strategy loop's trade-lock discipline — a signal dequeued while
`_trade_in_progress` is set is discarded with no effects and no state change
(never buffered or replayed); each iteration performs at most one order
submission; any submission happens with the lock free at iteration start and
with the lock-acquire as the first effect of the iteration; and after a
submission the lock is left held with the delayed unlock scheduled on success
(the later `_unlock_trade` clears it), or cleared immediately on failure or
exception. -/
theorem c1_trade_lock (st : RouterState) (signal : Signal) (env : Env) :
    (st.trade_in_progress = true →
      strategy_step false st signal env = (st, [], LoopAction.continued)) ∧
    countSubmits (strategy_step false st signal env).2.1 ≤ 1 ∧
    (∀ s sd q n,
      Effect.submitOrder s sd q n ∈ (strategy_step false st signal env).2.1 →
        st.trade_in_progress = false ∧
        (strategy_step false st signal env).2.1.head? =
          some (Effect.lockAcquire signal.symbol)) ∧
    (∀ s sd q n,
      Effect.submitOrder s sd q n ∈ (strategy_step false st signal env).2.1 →
        ((env.outcome = OrderOutcome.failure ∨ env.outcome = OrderOutcome.raised) →
          (strategy_step false st signal env).1.trade_in_progress = false) ∧
        (∀ oid, env.outcome = OrderOutcome.success oid →
          (strategy_step false st signal env).1.trade_in_progress = true ∧
          Effect.scheduleUnlock 5 ∈ (strategy_step false st signal env).2.1 ∧
          (unlock_trade (strategy_step false st signal env).1).trade_in_progress =
            false)) := by
  by_cases htip : st.trade_in_progress = true
  · have hstep := strategy_step_skip st signal env (Or.inr htip)
    refine ⟨fun _ => hstep, ?_, ?_, ?_⟩
    · rw [hstep]; exact Nat.le_of_eq countSubmits_nil |>.trans (Nat.zero_le 1)
    · intro s sd q n hmem; rw [hstep] at hmem; simp at hmem
    · intro s sd q n hmem; rw [hstep] at hmem; simp at hmem
  · have htip' : st.trade_in_progress = false := by
      cases h : st.trade_in_progress
      · rfl
      · exact absurd h htip
    by_cases hok : env.globally_ok = true
    · rcases strategy_step_spec st signal env hok htip' with ⟨heff, _⟩ |
        ⟨sd, q, n, ⟨heff, ⟨oid, hoc⟩, htipnew⟩ | ⟨heff, hoc, htipnew⟩⟩
      · refine ⟨fun h => absurd h (by simp [htip']), ?_, ?_, ?_⟩
        · rw [heff]; exact Nat.zero_le 1
        · intro s sd q n hmem; rw [heff] at hmem; simp at hmem
        · intro s sd q n hmem; rw [heff] at hmem; simp at hmem
      · refine ⟨fun h => absurd h (by simp [htip']), ?_, ?_, ?_⟩
        · rw [heff]; exact Nat.le_of_eq (countSubmits_success_shape _ _ _ _ _)
        · intro s sd' q' n' hmem
          exact ⟨htip', by rw [heff]; rfl⟩
        · intro s sd' q' n' hmem
          constructor
          · rintro (h | h) <;> rw [hoc] at h <;> cases h
          · intro oid' _
            exact ⟨htipnew, by rw [heff]; simp, unlock_trade_not_in_progress _⟩
      · refine ⟨fun h => absurd h (by simp [htip']), ?_, ?_, ?_⟩
        · rw [heff]; exact Nat.le_of_eq (countSubmits_failure_shape _ _ _ _ _)
        · intro s sd' q' n' hmem
          exact ⟨htip', by rw [heff]; rfl⟩
        · intro s sd' q' n' hmem
          constructor
          · intro _; exact htipnew
          · intro oid hsucc
            rcases hoc with h | h <;> rw [h] at hsucc <;> cases hsucc
    · have hok' : env.globally_ok = false := by
        cases h : env.globally_ok
        · rfl
        · exact absurd h hok
      have hstep := strategy_step_skip st signal env (Or.inl hok')
      refine ⟨fun _ => hstep, ?_, ?_, ?_⟩
      · rw [hstep]; exact Nat.zero_le 1
      · intro s sd q n hmem; rw [hstep] at hmem; simp at hmem
      · intro s sd q n hmem; rw [hstep] at hmem; simp at hmem

/-- Closed instance of `c1_trade_lock`: with the lock held, the dequeued
signal is discarded and the iteration has no effects. -/
theorem c1_trade_lock_witness :
    strategy_step false lockedRouterState buySignal openEnv =
      (lockedRouterState, [], LoopAction.continued) :=
  (c1_trade_lock lockedRouterState buySignal openEnv).1 rfl

/-- C2 counterexample: a signal dequeued while `is_globally_ok_to_trade()` is
false does not terminate the loop — the iteration ends with the loop
continuing, and a subsequent signal (with no daily reset in between) is
evaluated all the way to an order submission. -/
theorem c2_counterexample :
    (strategy_step false initialRouterState buySignal killSwitchEnv).2.2 =
        LoopAction.continued ∧
    countSubmits (run_steps initialRouterState
        [(buySignal, killSwitchEnv), (buySignal, openEnv)]).2 = 1 := by
  exact ⟨rfl, rfl⟩

/-- C2 amended: if `is_globally_ok_to_trade()` returns false when the loop
checks it after dequeuing a signal, the loop discards that signal (no state
change, no effects) and continues consuming; it does not terminate — the loop
breaks only on task cancellation — and later signals are evaluated again
whenever the check passes. -/
theorem c2_kill_switch_continues (st : RouterState) (signal : Signal) (env : Env)
    (h : env.globally_ok = false) :
    strategy_step false st signal env = (st, [], LoopAction.continued) :=
  strategy_step_skip st signal env (Or.inl h)

/-- Closed instance of `c2_kill_switch_continues` on the kill-switch
environment. -/
theorem c2_kill_switch_continues_witness :
    strategy_step false initialRouterState buySignal killSwitchEnv =
      (initialRouterState, [], LoopAction.continued) :=
  c2_kill_switch_continues initialRouterState buySignal killSwitchEnv rfl

/-- An iteration that performed a submission on a BUY signal with a successful
order result records the trade instant at the front of the cooldown
dictionary. -/
theorem strategy_step_buy_success_times (st : RouterState) (signal : Signal) (env : Env)
    (hside : signal.side = Side.BUY)
    (hoc : ∃ oid, env.outcome = OrderOutcome.success oid)
    (hsub : countSubmits (strategy_step false st signal env).2.1 = 1) :
    (strategy_step false st signal env).1.last_trade_times =
      (signal.symbol, env.now) :: st.last_trade_times := by
  by_cases hok : env.globally_ok = true
  · by_cases htip : st.trade_in_progress = true
    · rw [strategy_step_skip st signal env (Or.inr htip)] at hsub
      simp [countSubmits] at hsub
    · have htip' : st.trade_in_progress = false := by
        cases h : st.trade_in_progress
        · rfl
        · exact absurd h htip
      rw [strategy_step_eval st signal env hok htip'] at hsub ⊢
      rcases evaluate_signal_cases st signal env with hev |
        ⟨hside2, _, _, _, _⟩ | ⟨_, hev⟩
      · rw [hev] at hsub
        simp [countSubmits] at hsub
      · rw [hside] at hside2
        cases hside2
      · rcases execute_buy_trade_cases st signal env with
          ⟨_, hex⟩ | ⟨_, _, hex⟩ | ⟨_, hoc2, hex⟩
        · rw [hev, hex] at hsub
          simp [countSubmits] at hsub
        · rw [hev, hex]
        · rcases hoc with ⟨oid, hoc⟩
          rcases hoc2 with h | h <;> rw [h] at hoc <;> cases hoc
  · have hok' : env.globally_ok = false := by
      cases h : env.globally_ok
      · rfl
      · exact absurd h hok
    rw [strategy_step_skip st signal env (Or.inl hok')] at hsub
    simp [countSubmits] at hsub

/-- C7: cooldown handling of `_evaluate_signal` — a signal for a symbol whose
last recorded trade is less than 60 seconds old is dropped without
evaluation unless its `signal_type` is `"exit_monitor"`; an exit-monitor SELL
signal proceeds to the sell submission regardless of the cooldown state; and
after a BUY signal's successful execution, a second BUY signal for the same
symbol dequeued within the cooldown window (here after the delayed unlock has
fired) produces no order submission. -/
theorem c7_cooldown (st : RouterState) (sig1 sig2 : Signal) (env1 env2 : Env) :
    (is_in_cooldown st sig1.symbol env1.now = true →
      sig1.signal_type ≠ "exit_monitor" →
      evaluate_signal st sig1 env1 = (st, [])) ∧
    (∀ balance bid,
      sig1.signal_type = "exit_monitor" → sig1.side = Side.SELL →
      env1.best_bid = some bid → env1.balance = some balance →
      0 < balance.wallet_balance → ¬balance.wallet_balance * bid < 5 →
      Effect.submitOrder sig1.symbol Side.SELL balance.wallet_balance 0 ∈
        (evaluate_signal st sig1 env1).2) ∧
    (sig1.side = Side.BUY → sig2.side = Side.BUY → sig2.symbol = sig1.symbol →
      sig2.signal_type ≠ "exit_monitor" →
      (∃ oid, env1.outcome = OrderOutcome.success oid) →
      countSubmits (strategy_step false st sig1 env1).2.1 = 1 →
      env2.now - env1.now < 60 →
      countSubmits (strategy_step false
        (unlock_trade (strategy_step false st sig1 env1).1) sig2 env2).2.1 = 0) := by
  refine ⟨?_, ?_, ?_⟩
  · intro hcd hty
    have hb : (sig1.signal_type == "exit_monitor") = false := by
      cases hbeq : sig1.signal_type == "exit_monitor"
      · rfl
      · exact absurd (by simpa using hbeq) hty
    unfold evaluate_signal
    rw [hcd, hb]
    simp
  · intro balance bid hty hside hbid hbal hwb hdust
    have hb : (sig1.signal_type == "exit_monitor") = true := by
      rw [hty]
      simp
    have hev : evaluate_signal st sig1 env1 =
        execute_sell_trade st sig1 balance.wallet_balance env1 := by
      unfold evaluate_signal
      rw [hb, hbid, hside, hbal]
      simp [hwb, hdust]
    rw [hev]
    rcases execute_sell_trade_cases st sig1 balance.wallet_balance env1 with
      ⟨_, hex⟩ | ⟨_, hex⟩ <;> rw [hex] <;> simp
  · intro hside1 hside2 hsym hty2 hoc hsub hnow
    have hltt := strategy_step_buy_success_times st sig1 env1 hside1 hoc hsub
    have hun_t : (unlock_trade (strategy_step false st sig1 env1).1).last_trade_times =
        (sig1.symbol, env1.now) :: st.last_trade_times := by
      rw [unlock_trade_last_trade_times, hltt]
    have hcd : is_in_cooldown (unlock_trade (strategy_step false st sig1 env1).1)
        sig2.symbol env2.now = true := by
      unfold is_in_cooldown lookupTime
      rw [hun_t]
      simp [List.find?, hsym, hnow]
    have hb2 : (sig2.signal_type == "exit_monitor") = false := by
      cases hbeq : sig2.signal_type == "exit_monitor"
      · rfl
      · exact absurd (by simpa using hbeq) hty2
    have hev : evaluate_signal (unlock_trade (strategy_step false st sig1 env1).1)
        sig2 env2 = (unlock_trade (strategy_step false st sig1 env1).1, []) := by
      unfold evaluate_signal
      rw [hcd, hb2]
      simp
    have htip2 := unlock_trade_not_in_progress (strategy_step false st sig1 env1).1
    by_cases hok2 : env2.globally_ok = true
    · rw [strategy_step_eval (unlock_trade (strategy_step false st sig1 env1).1)
        sig2 env2 hok2 htip2, hev]
      rfl
    · have hok2' : env2.globally_ok = false := by
        cases h : env2.globally_ok
        · rfl
        · exact absurd h hok2
      rw [strategy_step_skip (unlock_trade (strategy_step false st sig1 env1).1)
        sig2 env2 (Or.inl hok2')]
      rfl

/-- Closed instance of `c7_cooldown`: a successful BUY at instant 10 followed
by a second BUY for the same symbol at instant 40 (inside the 60-second
window, after the delayed unlock) yields no second submission. -/
theorem c7_cooldown_witness :
    countSubmits (strategy_step false
      (unlock_trade (strategy_step false initialRouterState buySignal openEnv).1)
      buySignal laterEnv).2.1 = 0 :=
  (c7_cooldown initialRouterState buySignal buySignal openEnv laterEnv).2.2
    rfl rfl rfl (by decide) ⟨"oid-1", rfl⟩ rfl (by decide)

/-- C8: `_evaluate_signal` on a SELL signal — no order submission occurs when
the base-asset balance is absent, its held quantity is not positive, or its
value at the current best bid is below the 5-USD minimum; otherwise (when the
cooldown gate does not drop the signal) control reaches
`_execute_sell_trade`, which submits the sell for the full held quantity. -/
theorem c8_sell_requires_balance (st : RouterState) (signal : Signal) (env : Env)
    (hside : signal.side = Side.SELL) :
    (env.balance = none → countSubmits (evaluate_signal st signal env).2 = 0) ∧
    (∀ balance, env.balance = some balance → balance.wallet_balance ≤ 0 →
      countSubmits (evaluate_signal st signal env).2 = 0) ∧
    (∀ balance bid, env.balance = some balance → env.best_bid = some bid →
      balance.wallet_balance * bid < 5 →
      countSubmits (evaluate_signal st signal env).2 = 0) ∧
    (∀ balance bid, env.balance = some balance → env.best_bid = some bid →
      0 < balance.wallet_balance → ¬balance.wallet_balance * bid < 5 →
      ¬(is_in_cooldown st signal.symbol env.now = true ∧
        signal.signal_type ≠ "exit_monitor") →
      evaluate_signal st signal env =
        execute_sell_trade st signal balance.wallet_balance env ∧
      Effect.submitOrder signal.symbol Side.SELL balance.wallet_balance 0 ∈
        (evaluate_signal st signal env).2) := by
  refine ⟨?_, ?_, ?_, ?_⟩
  · intro hbal
    unfold evaluate_signal
    split
    · rfl
    · cases hbid : env.best_bid with
      | none => rfl
      | some bid =>
        rw [hside, hbal]
        rfl
  · intro balance hbal hwb
    unfold evaluate_signal
    split
    · rfl
    · cases hbid : env.best_bid with
      | none => rfl
      | some bid =>
        rw [hside, hbal]
        simp [not_lt.mpr hwb, countSubmits]
  · intro balance bid hbal hbid hdust
    unfold evaluate_signal
    split
    · rfl
    · rw [hbid, hside, hbal]
      by_cases hwb : 0 < balance.wallet_balance
      · simp [hwb, hdust, countSubmits]
      · simp [hwb, countSubmits]
  · intro balance bid hbal hbid hwb hdust hgate
    have hcond : (is_in_cooldown st signal.symbol env.now &&
        !(signal.signal_type == "exit_monitor")) = false := by
      cases hc : is_in_cooldown st signal.symbol env.now
      · rfl
      · cases hb : signal.signal_type == "exit_monitor"
        · exact absurd ⟨hc, by simpa using hb⟩ hgate
        · rfl
    have hev : evaluate_signal st signal env =
        execute_sell_trade st signal balance.wallet_balance env := by
      unfold evaluate_signal
      rw [hcond, hbid, hside, hbal]
      simp [hwb, hdust]
    refine ⟨hev, ?_⟩
    rw [hev]
    rcases execute_sell_trade_cases st signal balance.wallet_balance env with
      ⟨_, hex⟩ | ⟨_, hex⟩ <;> rw [hex] <;> simp

/-- Closed instance of `c8_sell_requires_balance`: an exit-monitor SELL for a
held balance of 2 units quoted at 100 submits the sell for the full
quantity. -/
theorem c8_sell_requires_balance_witness :
    evaluate_signal initialRouterState exitSellSignal heldEnv =
        execute_sell_trade initialRouterState exitSellSignal 2 heldEnv ∧
      Effect.submitOrder "ETHUSDT" Side.SELL 2 0 ∈
        (evaluate_signal initialRouterState exitSellSignal heldEnv).2 :=
  (c8_sell_requires_balance initialRouterState exitSellSignal heldEnv rfl).2.2.2
    { coin := "ETH", wallet_balance := 2 } 100 rfl rfl (by norm_num)
    (by norm_num) (by decide)

/-- C9: the spec-modelled `calculate_notional_size` returns 0 when the
available balance is below the minimum trading buffer or the computed size is
below the exchange's minimum order value, and otherwise
`min(total_equity * risk_per_trade, available_balance)` rounded to two
decimal places; with `total_equity = 1000`, `risk_per_trade = 0.1` and
`available_balance = 50` it returns 50. -/
theorem c9_notional_size (cfg : RiskConfig)
    (total_equity available_balance min_trading_buffer min_order_value : ℚ) :
    (available_balance < min_trading_buffer →
      calculate_notional_size cfg total_equity available_balance
        min_trading_buffer min_order_value = 0) ∧
    (¬available_balance < min_trading_buffer →
      min (total_equity * cfg.risk_per_trade) available_balance < min_order_value →
      calculate_notional_size cfg total_equity available_balance
        min_trading_buffer min_order_value = 0) ∧
    (¬available_balance < min_trading_buffer →
      ¬min (total_equity * cfg.risk_per_trade) available_balance < min_order_value →
      calculate_notional_size cfg total_equity available_balance
        min_trading_buffer min_order_value =
        round2 (min (total_equity * cfg.risk_per_trade) available_balance)) ∧
    calculate_notional_size { cfg with risk_per_trade := 1 / 10 } 1000 50 10 20 = 50 := by
  refine ⟨?_, ?_, ?_, ?_⟩
  · intro h
    unfold calculate_notional_size
    rw [if_pos h]
  · intro h1 h2
    unfold calculate_notional_size
    rw [if_neg h1, if_pos h2]
  · intro h1 h2
    unfold calculate_notional_size
    rw [if_neg h1, if_neg h2]
  · norm_num [calculate_notional_size, round2, round_eq]

/-- Closed instance of `c9_notional_size`: an available balance of 5, below a
trading buffer of 10, is rejected with a size of 0. -/
theorem c9_notional_size_witness :
    calculate_notional_size defaultRiskConfig 1000 5 10 20 = 0 :=
  (c9_notional_size defaultRiskConfig 1000 5 10 20).1 (by norm_num)

/-- C4: the exit-signal factory `_create_exit_signal` never produces a valid
`Signal`: the constructor call omits the required `strength` field (and uses
the `signal_type` `"exit_monitor"`, which the model's `Literal` forbids), so
pydantic validation fails for every position and reason, and nothing is
enqueued. -/
theorem c4_exit_signal_never_validates (position : Position) (reason : String) :
    create_exit_signal position reason =
      Except.error "ValidationError: field required: strength" := by
  rfl

/-- C5 counterexample: in the spec's trailing-stop scenario
(`highest_price_since_entry = 110`, `trailing_sl_bps = 200` would give a
trigger of `107.8`, current price `107.5`), the monitor emits no exit signal
at all — the evaluation of the position aborts with `AttributeError` after the
take-profit and stop-loss branches, and no trailing-stop branch exists. -/
theorem c5_counterexample :
    monitor_check_position
      { defaultRiskConfig with trailing_sl_bps := 200 } c5Position (some (215 / 2)) =
      MonitorResult.attrError := by
  norm_num [monitor_check_position, c5Position, defaultRiskConfig]

/-- C5 amended: the position monitor implements no trailing stop — it never
updates `highest_price_since_entry` and computes no trailing trigger; for
every position with a nonzero entry price whose `pnl_bps` lies strictly
between `-default_sl_bps` and `default_tp_bps`, the evaluation reaches the
timeout test and aborts with `AttributeError` (`RiskConfig` has no
`max_holding_time_seconds` field), emitting no exit signal. -/
theorem c5_no_trailing_stop (cfg : RiskConfig) (pos : Position) (current_price : ℚ)
    (hentry : pos.entry_price ≠ 0)
    (htp : (current_price / pos.entry_price - 1) * 10000 < (cfg.default_tp_bps : ℚ))
    (hsl : -(cfg.default_sl_bps : ℚ) < (current_price / pos.entry_price - 1) * 10000) :
    monitor_check_position cfg pos (some current_price) = MonitorResult.attrError := by
  simp only [monitor_check_position]
  rw [if_neg hentry, if_neg (not_le.mpr htp), if_neg (not_le.mpr hsl)]

/-- Closed instance of `c5_no_trailing_stop` at the flat position
(`pnl_bps = 20`) under the default configuration. -/
theorem c5_no_trailing_stop_witness :
    monitor_check_position defaultRiskConfig c5FlatPosition (some (501 / 5)) =
      MonitorResult.attrError :=
  c5_no_trailing_stop defaultRiskConfig c5FlatPosition (501 / 5)
    (by norm_num [c5FlatPosition]) (by norm_num [c5FlatPosition, defaultRiskConfig])
    (by norm_num [c5FlatPosition, defaultRiskConfig])

/-- C6: `RiskConfig` (`app/state/models.py` lines 38–47) has no
`max_holding_time_seconds` field, so for a position where neither take-profit
nor stop-loss triggered — here `pnl_bps = 0` with the entry arbitrarily far in
the past — the monitor's timeout test raises `AttributeError` instead of
emitting a timeout exit signal. -/
theorem c6_timeout_attribute_error :
    monitor_check_position defaultRiskConfig c6Position (some 100) =
      MonitorResult.attrError := by
  norm_num [monitor_check_position, c6Position, defaultRiskConfig]

/-- C10 counterexample: starting from a store that has breached the daily loss
limit (P&L −300 against a limit of 200), the periodic cache operation
`update_realized_pnl` — not `reset_daily_state` — sets the daily P&L to 0:
afterwards the cached P&L no longer equals `total_equity -
initial_total_equity` (0 ≠ −300) and the kill-switch reopens trading. -/
theorem c10_counterexample :
    is_globally_ok_to_trade defaultRiskConfig breachedStore.pnl_day
        breachedStore.total_equity = false ∧
    (update_realized_pnl breachedStore).pnl_day = 0 ∧
    (update_realized_pnl breachedStore).pnl_day ≠
      (update_realized_pnl breachedStore).total_equity -
        (update_realized_pnl breachedStore).initial_total_equity ∧
    is_globally_ok_to_trade defaultRiskConfig (update_realized_pnl breachedStore).pnl_day
      (update_realized_pnl breachedStore).total_equity = true := by
  refine ⟨?_, rfl, ?_, ?_⟩ <;>
    norm_num [is_globally_ok_to_trade, update_realized_pnl, breachedStore, defaultRiskConfig]

/-- C10 amended: whenever the initial daily equity is positive, the
wallet-balance update caches `pnl_day = total_equity - initial_total_equity`
(leaving the baseline untouched), and `reset_daily_state` zeroes the daily
P&L; but the store's `update_realized_pnl` (run every 60 s by
`update_realized_pnl_loop` when that loop is started) also unconditionally
sets `pnl_day` and `realized_pnl` to 0, so a breached daily limit does not
stay breached across that operation. -/
theorem c10_pnl_cache (st : StoreState) (te ab : ℚ)
    (h : 0 < st.initial_total_equity) :
    (update_wallet_balance st te ab).pnl_day = te - st.initial_total_equity ∧
    (update_wallet_balance st te ab).initial_total_equity = st.initial_total_equity ∧
    (update_realized_pnl st).pnl_day = 0 ∧
    (update_realized_pnl st).realized_pnl = 0 ∧
    (reset_daily_state st te).pnl_day = 0 := by
  unfold update_wallet_balance update_realized_pnl reset_daily_state
  simp [h]

/-- Closed instance of `c10_pnl_cache` on the breached store with a fetched
equity of 700. -/
theorem c10_pnl_cache_witness :
    (update_wallet_balance breachedStore 700 700).pnl_day =
        700 - breachedStore.initial_total_equity ∧
    (update_wallet_balance breachedStore 700 700).initial_total_equity =
        breachedStore.initial_total_equity ∧
    (update_realized_pnl breachedStore).pnl_day = 0 ∧
    (update_realized_pnl breachedStore).realized_pnl = 0 ∧
    (reset_daily_state breachedStore 700).pnl_day = 0 :=
  c10_pnl_cache breachedStore 700 700 (by decide)

end CoinBot
